import Mathlib

/-!
Formal model of the AgentCore gateway Lambda sample: the Lambda tool
dispatcher (embedded in create_lambda.py), the gateway tool schemas
(create_gateway.py) and the runtime agent orchestrator
(runtime_agent.py), with theorems about tool-name resolution,
dispatch, error handling and the tool-calling loop.
-/

/-- JSON values as produced and consumed by the Lambda handler. -/
inductive Json where
  | str : String → Json
  | num : Int → Json
  | arr : List Json → Json
  | obj : List (String × Json) → Json

/-- The fixed three-character gateway delimiter, the Python literal "___". -/
def delim : List Char := ['_', '_', '_']

/-- Index of the first occurrence of pat in s, as Python str.index used on
a string known to contain pat; none when pat does not occur. -/
def findSub (pat : List Char) : List Char → Option Nat
  | [] => if pat.isPrefixOf ([] : List Char) then some 0 else none
  | c :: t =>
    if pat.isPrefixOf (c :: t) then some 0
    else Option.map (fun n => n + 1) (findSub pat t)

/-- Prefix-stripping of create_lambda.py lines 40-42: if the delimiter
occurs in the raw tool name, keep everything after its first occurrence
(Python tool_name[tool_name.index(delimiter) + len(delimiter):]);
otherwise the raw name is kept unchanged. -/
def resolveToolName (raw : List Char) : List Char :=
  match findSub delim raw with
  | some i => List.drop (i + delim.length) raw
  | none => raw

/-- String-level wrapper for the tool-name resolution. -/
def resolveToolNameS (raw : String) : String :=
  List.asString (resolveToolName raw.toList)

/-- The Python test delimiter in tool_name: the delimiter occurs as a
contiguous substring. -/
def containsDelim (s : List Char) : Prop :=
  ∃ p q, s = p ++ delim ++ q

/-- Lowercase hexadecimal digit, as used by Python json.dumps escapes. -/
def hexDigit (n : Nat) : Char :=
  Char.ofNat (if n < 10 then 48 + n else 87 + n)

/-- A \uXXXX escape for a code unit below 0x10000. -/
def uEscape (n : Nat) : List Char :=
  [Char.ofNat 92, 'u', hexDigit (n / 4096 % 16), hexDigit (n / 256 % 16),
   hexDigit (n / 16 % 16), hexDigit (n % 16)]

/-- Escaping of one character inside a JSON string literal, following
Python json.dumps with its default ensure_ascii=True: quote, backslash
and the short control escapes, printable ASCII kept, everything else as
\uXXXX (astral characters as a surrogate pair). -/
def escapeChar (c : Char) : List Char :=
  if c = Char.ofNat 34 then [Char.ofNat 92, Char.ofNat 34]
  else if c = Char.ofNat 92 then [Char.ofNat 92, Char.ofNat 92]
  else if c = Char.ofNat 10 then [Char.ofNat 92, 'n']
  else if c = Char.ofNat 9 then [Char.ofNat 92, 't']
  else if c = Char.ofNat 13 then [Char.ofNat 92, 'r']
  else if c = Char.ofNat 8 then [Char.ofNat 92, 'b']
  else if c = Char.ofNat 12 then [Char.ofNat 92, 'f']
  else if 32 ≤ c.toNat ∧ c.toNat ≤ 126 then [c]
  else if c.toNat < 65536 then uEscape c.toNat
  else uEscape (55296 + (c.toNat - 65536) / 1024) ++ uEscape (56320 + (c.toNat - 65536) % 1024)

/-- A double-quoted, escaped JSON string literal. -/
def quoteStr (s : String) : String :=
  String.mk (Char.ofNat 34 :: (s.toList.flatMap escapeChar) ++ [Char.ofNat 34])

mutual

/-- Python json.dumps with default separators: objects and arrays use
the item separator comma-space and the key separator colon-space. -/
def dumpsJ : Json → String
  | Json.str s => quoteStr s
  | Json.num n => toString n
  | Json.arr xs => "[" ++ dumpsList xs ++ "]"
  | Json.obj kvs => String.mk [Char.ofNat 123] ++ dumpsPairs kvs ++ String.mk [Char.ofNat 125]

/-- Comma-separated array elements of json.dumps. -/
def dumpsList : List Json → String
  | [] => ""
  | [x] => dumpsJ x
  | x :: y :: t => dumpsJ x ++ ", " ++ dumpsList (y :: t)

/-- Comma-separated key-value pairs of json.dumps. -/
def dumpsPairs : List (String × Json) → String
  | [] => ""
  | [(k, v)] => quoteStr k ++ ": " ++ dumpsJ v
  | (k, v) :: y :: t => quoteStr k ++ ": " ++ dumpsJ v ++ ", " ++ dumpsPairs (y :: t)

end

/-- Python str() as applied by f-string interpolation in the handler:
the raw content for strings, the decimal form for integers; container
values use their Python repr, abbreviated here to their JSON dump (the
handler only ever interpolates the orderId value, which the gateway
schema declares as a string). -/
def pyStr : Json → String
  | Json.str s => s
  | Json.num n => toString n
  | j => dumpsJ j

/-- Python dict.get with a default, as used on the Lambda event. -/
def eventGet (event : List (String × Json)) (k : String) (dflt : Json) : Json :=
  match List.lookup k event with
  | some v => v
  | none => dflt

/-- The client context object of a Lambda invocation; its custom dict
may itself be absent (a None value raises TypeError on subscription,
which the handler catches). -/
structure ClientContext where
  custom : Option (List (String × String))

/-- The Lambda context: client_context is set when the invocation comes
through the gateway and None on direct invocation. -/
structure LambdaContext where
  client_context : Option ClientContext

/-- Tool-name extraction of create_lambda.py lines 32-49: read
custom['bedrockAgentCoreToolName'] from the client context and strip
the gateway target prefix; every failure path (no client_context, no
custom dict, missing key — AttributeError, KeyError, TypeError) leaves
tool_name as None. -/
def getToolName (ctx : LambdaContext) : Option String :=
  match ctx.client_context with
  | none => none
  | some cc =>
    match cc.custom with
    | none => none
    | some kvs =>
      match List.lookup "bedrockAgentCoreToolName" kvs with
      | none => none
      | some raw => some (resolveToolNameS raw)

/-- Python f-string formatting of the optional tool name: None prints
as the literal None. -/
def formatToolName : Option String → String
  | none => "None"
  | some s => s

/-- The handler's return value: statusCode and a JSON-encoded body. -/
structure LambdaResponse where
  statusCode : Nat
  body : String

/-- The Lambda dispatcher of create_lambda.py lines 25-89: branch on
the resolved tool name, with a 400 error envelope for unknown tools. -/
def lambda_handler (event : List (String × Json)) (ctx : LambdaContext) : LambdaResponse :=
  let tool_name := getToolName ctx
  if tool_name = some "get_order_tool" then
    let order_id := eventGet event "orderId" (Json.str "unknown")
    LambdaResponse.mk 200 (dumpsJ (Json.obj
      [("orderId", order_id),
       ("status", Json.str "processing"),
       ("items", Json.arr
         [Json.obj [("name", Json.str "商品A"), ("quantity", Json.num 2)],
          Json.obj [("name", Json.str "商品B"), ("quantity", Json.num 1)]]),
       ("total", Json.num 5000)]))
  else if tool_name = some "update_order_tool" then
    let order_id := eventGet event "orderId" (Json.str "unknown")
    LambdaResponse.mk 200 (dumpsJ (Json.obj
      [("orderId", order_id),
       ("status", Json.str "updated"),
       ("message", Json.str ("Order " ++ pyStr order_id ++ " has been updated successfully"))]))
  else
    LambdaResponse.mk 400 (dumpsJ (Json.obj
      [("error", Json.str ("Unknown tool: " ++ formatToolName tool_name))]))

/-- One tool schema entry registered on the gateway target. -/
structure ToolSchemaEntry where
  name : String
  description : String
  inputSchema : Json

/-- The inline tool schemas of create_gateway.py lines 42-71. -/
def tool_schemas : List ToolSchemaEntry :=
  [ToolSchemaEntry.mk "get_order_tool" "注文情報を取得します"
     (Json.obj
       [("type", Json.str "object"),
        ("properties", Json.obj
          [("orderId", Json.obj
             [("type", Json.str "string"), ("description", Json.str "注文ID")])]),
        ("required", Json.arr [Json.str "orderId"])]),
   ToolSchemaEntry.mk "update_order_tool" "注文情報を更新します"
     (Json.obj
       [("type", Json.str "object"),
        ("properties", Json.obj
          [("orderId", Json.obj
             [("type", Json.str "string"), ("description", Json.str "注文ID")])]),
        ("required", Json.arr [Json.str "orderId"])])]

/-- The declared required argument names of an input schema. -/
def requiredList : Json → List String
  | Json.obj kvs =>
    match List.lookup "required" kvs with
    | some (Json.arr xs) => xs.filterMap (fun j => match j with | Json.str s => some s | _ => none)
    | _ => []
  | _ => []

/-- The environment the orchestrator runs against: the outcome of
opening the MCP session and listing tools, and the outcome of building
the agent and running it on the user input (both external effects that
may raise; an error value carries str(e) of the raised exception). -/
structure AgentEnv where
  listToolsResult : Except String (List ToolSchemaEntry)
  agentRun : List ToolSchemaEntry → Json → Except String String

/-- The default prompt of runtime_agent.py line 69. -/
def defaultPrompt : String := "注文IDの123の情報を教えて"

/-- The body of process_with_gateway (runtime_agent.py lines 32-80):
open the client session and list tools, build the agent and run it on
the payload's prompt; any exception inside the session is caught and
converted to the string Japanese-for-"an error occurred" plus str(e).
There is no emptiness check on the discovered tool list. -/
def process_with_gateway (env : AgentEnv) (payload : List (String × Json)) : String :=
  match env.listToolsResult with
  | Except.error e => "エラーが発生しました: " ++ e
  | Except.ok tools =>
    match env.agentRun tools (eventGet payload "prompt" (Json.str defaultPrompt)) with
    | Except.error e => "エラーが発生しました: " ++ e
    | Except.ok answer => answer

/-- Python str.isspace characters relevant to str.split(). -/
def pyIsSpace (c : Char) : Bool :=
  (c.toNat == 32) || (c.toNat == 9) || (c.toNat == 10) ||
  (c.toNat == 13) || (c.toNat == 11) || (c.toNat == 12)

/-- Accumulator pass of Python str.split() with no arguments: split on
runs of whitespace, dropping empty fields. -/
def splitAux : List Char → List Char → List String
  | [], [] => []
  | [], cur => [String.mk cur.reverse]
  | c :: t, cur =>
    if pyIsSpace c then
      (if cur.isEmpty then splitAux t [] else String.mk cur.reverse :: splitAux t [])
    else splitAux t (c :: cur)

/-- Python str.split() with no arguments. -/
def pySplit (s : String) : List String := splitAux s.toList []

/-- The scopes argument of runtime_agent.py line 28:
gateway_scope.split() if gateway_scope else [] — None and the empty
string are falsy and give the empty scope list. -/
def scopesFrom : Option String → List String
  | none => []
  | some s => if s.isEmpty then [] else pySplit s

/-- The entrypoint order_management_agent (runtime_agent.py lines
14-87): acquire the access token with the configured scopes and run
process_with_gateway; an exception from credential acquisition is
caught and converted to the string Japanese-for-"authentication
failed" plus str(e). -/
def order_management_agent (gateway_scope : Option String)
    (tokenProvider : List String → Except String Unit)
    (env : AgentEnv) (payload : List (String × Json)) : String :=
  match tokenProvider (scopesFrom gateway_scope) with
  | Except.error e => "認証に失敗しました: " ++ e
  | Except.ok _ => process_with_gateway env payload

/-- One model turn of the tool-calling loop: either a final textual
answer or a requested tool call. -/
inductive ModelStep where
  | finalAnswer (text : String)
  | toolCall (name : String) (args : List (String × Json))

/-- Modelled from the spec: the bounded tool-calling loop of the Agent
Orchestrator (section 4.4 / section 8 of the design). The agent call in
runtime_agent.py line 73 delegates the loop to the external strands
library, whose implementation is not part of this repository. Each
iteration asks the model for a step given the tool results so far; a
tool call is routed to the tools and its result appended, a final
answer ends the loop with the number of tool invocations issued; the
configured maximum iteration count bounds runaway tool-calling with a
bounded-loop error. -/
def toolLoop (invoke : String → List (String × Json) → Json)
    (model : List Json → ModelStep) : List Json → Nat → Except String (String × Nat)
  | _, 0 => Except.error "Maximum tool-calling iterations reached"
  | results, Nat.succ fuel =>
    match model results with
    | ModelStep.finalAnswer t => Except.ok (t, results.length)
    | ModelStep.toolCall n a => toolLoop invoke model (results ++ [invoke n a]) fuel

/-- A scripted model that requests N tool calls and then returns a
final answer. -/
def scriptedModel (N : Nat) (ans : String) : List Json → ModelStep :=
  fun results =>
    if results.length < N then ModelStep.toolCall "get_order_tool" []
    else ModelStep.finalAnswer ans

/-- The empty-pattern-free prefix fact: a list is a prefix of itself
followed by anything. -/
theorem isPrefixOf_append_self (p r : List Char) : p.isPrefixOf (p ++ r) = true := by
  induction p with
  | nil => simp [List.isPrefixOf]
  | cons a as ih => simp [List.isPrefixOf, ih]

/-- A Boolean prefix yields an explicit suffix decomposition. -/
theorem isPrefixOf_exists_suffix :
    ∀ {p s : List Char}, p.isPrefixOf s = true → ∃ r, s = p ++ r := by
  intro p
  induction p with
  | nil => intro s _; exact ⟨s, rfl⟩
  | cons a as ih =>
    intro s h
    cases s with
    | nil => simp [List.isPrefixOf] at h
    | cons b bs =>
      simp only [List.isPrefixOf, Bool.and_eq_true, beq_iff_eq] at h
      obtain ⟨r, hr⟩ := ih h.2
      exact ⟨r, by rw [h.1, hr, List.cons_append]⟩

/-- findSub returns an index at which the pattern occurs. -/
theorem findSub_some_isPrefixOf (pat : List Char) :
    ∀ (s : List Char) (i : Nat), findSub pat s = some i →
      pat.isPrefixOf (List.drop i s) = true := by
  intro s
  induction s with
  | nil =>
    intro i h
    unfold findSub at h
    split at h
    · rename_i hc
      cases h
      simpa using hc
    · cases h
  | cons c t ih =>
    intro i h
    unfold findSub at h
    split at h
    · rename_i hc
      cases h
      simpa using hc
    · cases hft : findSub pat t with
      | none => rw [hft] at h; cases h
      | some k =>
        rw [hft] at h
        simp at h
        subst h
        rw [List.drop_succ_cons]
        exact ih k hft

/-- findSub returns the least occurrence index. -/
theorem findSub_some_least (pat : List Char) :
    ∀ (s : List Char) (i : Nat), findSub pat s = some i →
      ∀ j, j < i → pat.isPrefixOf (List.drop j s) = false := by
  intro s
  induction s with
  | nil =>
    intro i h j hj
    unfold findSub at h
    split at h
    · cases h
      exact absurd hj (by omega)
    · cases h
  | cons c t ih =>
    intro i h j hj
    unfold findSub at h
    split at h
    · cases h
      exact absurd hj (by omega)
    · rename_i hc
      cases hft : findSub pat t with
      | none => rw [hft] at h; cases h
      | some k =>
        rw [hft] at h
        simp at h
        subst h
        cases j with
        | zero => exact Bool.eq_false_iff.mpr hc
        | succ j2 =>
          rw [List.drop_succ_cons]
          exact ih k hft j2 (by omega)

/-- When findSub finds nothing, the pattern occurs nowhere. -/
theorem findSub_none_all (pat : List Char) :
    ∀ (s : List Char), findSub pat s = none →
      ∀ j, pat.isPrefixOf (List.drop j s) = false := by
  intro s
  induction s with
  | nil =>
    intro h j
    unfold findSub at h
    split at h
    · cases h
    · rename_i hc
      rw [List.drop_nil]
      exact Bool.eq_false_iff.mpr hc
  | cons c t ih =>
    intro h j
    unfold findSub at h
    split at h
    · cases h
    · rename_i hc
      cases hft : findSub pat t with
      | some k => rw [hft] at h; simp at h
      | none =>
        cases j with
        | zero => exact Bool.eq_false_iff.mpr hc
        | succ j2 =>
          rw [List.drop_succ_cons]
          exact ih hft j2

/-- Containment of the delimiter coincides with findSub succeeding. -/
theorem containsDelim_iff_findSub (s : List Char) :
    containsDelim s ↔ (findSub delim s).isSome = true := by
  constructor
  · rintro ⟨p, q, hpq⟩
    cases hfs : findSub delim s with
    | some k => simp
    | none =>
      exfalso
      have h := findSub_none_all delim s hfs p.length
      rw [hpq, List.append_assoc, List.drop_left, isPrefixOf_append_self delim q] at h
      simp at h
  · intro h
    cases hfs : findSub delim s with
    | none => rw [hfs] at h; simp at h
    | some k =>
      have hk := findSub_some_isPrefixOf delim s k hfs
      obtain ⟨r, hr⟩ := isPrefixOf_exists_suffix hk
      exact ⟨List.take k s, r, by rw [List.append_assoc, ← hr, List.take_append_drop]⟩

/-- Claim C1: for every raw tool identifier in which the delimiter ___
occurs, the Lambda dispatcher's resolved tool name is the substring
strictly after the first occurrence of the delimiter, so an identifier
with several occurrences keeps everything after the first one. -/
theorem resolve_first_delimiter (raw : List Char) (i : Nat)
    (hocc : delim.isPrefixOf (List.drop i raw) = true)
    (hfirst : ∀ j, j < i → delim.isPrefixOf (List.drop j raw) = false) :
    resolveToolName raw = List.drop (i + 3) raw ∧
    ∃ p, raw = p ++ delim ++ List.drop (i + 3) raw ∧ p.length = i := by
  cases hfs : findSub delim raw with
  | none =>
    have h := findSub_none_all delim raw hfs i
    rw [h] at hocc
    simp at hocc
  | some k =>
    have hk := findSub_some_isPrefixOf delim raw k hfs
    have hik : k = i := by
      rcases Nat.lt_trichotomy k i with h | h | h
      · rw [hfirst k h] at hk; simp at hk
      · exact h
      · rw [findSub_some_least delim raw k hfs i h] at hocc; simp at hocc
    rw [hik] at hfs
    obtain ⟨r, hr⟩ := isPrefixOf_exists_suffix hocc
    have hr3 : List.drop (i + 3) raw = r := by
      have hdd : List.drop 3 (List.drop i raw) = r := by rw [hr]; rfl
      rw [List.drop_drop] at hdd
      exact hdd
    have hlen : i ≤ List.length raw := by
      have hl := congrArg List.length hr
      simp [delim] at hl
      omega
    constructor
    · unfold resolveToolName
      rw [hfs]
      rfl
    · refine ⟨List.take i raw, ?_, ?_⟩
      · rw [hr3]
        calc raw = List.take i raw ++ List.drop i raw := (List.take_append_drop i raw).symm
          _ = List.take i raw ++ (delim ++ r) := by rw [hr]
          _ = List.take i raw ++ delim ++ r := by rw [List.append_assoc]
      · simpa using hlen

/-- Claim C1 witness: the spec's example, the gateway-prefixed
identifier orderLambdaTarget___get_order_tool resolves to
get_order_tool. -/
theorem resolve_first_delimiter_check :
    resolveToolName ("orderLambdaTarget___get_order_tool".toList) = "get_order_tool".toList := by
  have h := resolve_first_delimiter ("orderLambdaTarget___get_order_tool".toList) 17
    (by decide) (by decide)
  rw [h.1]
  decide

/-- Claim C3: a raw tool identifier without the delimiter resolves to
itself unchanged (direct-invocation fallback). -/
theorem no_delimiter_identity (raw : List Char) (h : ¬ containsDelim raw) :
    resolveToolName raw = raw := by
  cases hfs : findSub delim raw with
  | none => simp [resolveToolName, hfs]
  | some k =>
    exfalso
    apply h
    have hk := findSub_some_isPrefixOf delim raw k hfs
    obtain ⟨r, hr⟩ := isPrefixOf_exists_suffix hk
    exact ⟨List.take k raw, r, by rw [List.append_assoc, ← hr, List.take_append_drop]⟩

/-- Claim C3 witness: get_order_tool, which has no delimiter, resolves
to itself. -/
theorem no_delimiter_identity_check :
    resolveToolName ("get_order_tool".toList) = "get_order_tool".toList := by
  apply no_delimiter_identity
  intro hc
  have h2 := (containsDelim_iff_findSub _).mp hc
  revert h2
  decide

/-- Claim C2: dispatch on a resolved tool name with no registry entry
(neither get_order_tool nor update_order_tool) returns statusCode 400
with body the JSON encoding of the error envelope Unknown tool plus the
name; no handler branch is invoked (both handler branches return
statusCode 200, so the 400 envelope shows neither ran). -/
theorem unknown_tool_rejected (event : List (String × Json)) (ctx : LambdaContext)
    (name : String) (hres : getToolName ctx = some name)
    (h1 : name ≠ "get_order_tool") (h2 : name ≠ "update_order_tool") :
    lambda_handler event ctx =
      LambdaResponse.mk 400 (dumpsJ (Json.obj
        [("error", Json.str ("Unknown tool: " ++ name))])) := by
  unfold lambda_handler
  rw [hres]
  simp [h1, h2, formatToolName]

/-- Claim C2 witness: the gateway-routed identifier
orderLambdaTarget___mystery_tool resolves to mystery_tool, which has no
registry entry, and is rejected with the 400 envelope. -/
theorem unknown_tool_rejected_check :
    lambda_handler [("orderId", Json.str "123")]
        (LambdaContext.mk (some (ClientContext.mk (some
          [("bedrockAgentCoreToolName", "orderLambdaTarget___mystery_tool")])))) =
      LambdaResponse.mk 400 (dumpsJ (Json.obj
        [("error", Json.str ("Unknown tool: " ++ "mystery_tool"))])) :=
  unknown_tool_rejected _ _ "mystery_tool" (by decide) (by decide) (by decide)

/-- Claim C9: when no tool name can be read from the invocation context
(direct Lambda invocation with no client_context, a None custom dict,
or a missing bedrockAgentCoreToolName key — the caught AttributeError,
KeyError and TypeError paths), the resolved tool name is None and the
dispatcher returns 400 with the envelope Unknown tool: None for every
event, so the event payload alone can never reach a tool handler. -/
theorem missing_context_rejected :
    (∀ ctx : LambdaContext, ctx.client_context = none → getToolName ctx = none) ∧
    (∀ cc : ClientContext, cc.custom = none →
      getToolName (LambdaContext.mk (some cc)) = none) ∧
    (∀ (cc : ClientContext) (kvs : List (String × String)), cc.custom = some kvs →
      List.lookup "bedrockAgentCoreToolName" kvs = none →
      getToolName (LambdaContext.mk (some cc)) = none) ∧
    (∀ (event : List (String × Json)) (ctx : LambdaContext), getToolName ctx = none →
      lambda_handler event ctx =
        LambdaResponse.mk 400 (dumpsJ (Json.obj
          [("error", Json.str "Unknown tool: None")]))) := by
  refine ⟨?_, ?_, ?_, ?_⟩
  · intro ctx h
    unfold getToolName
    rw [h]
  · intro cc h
    unfold getToolName
    simp [h]
  · intro cc kvs h1 h2
    unfold getToolName
    simp [h1, h2]
  · intro event ctx h
    unfold lambda_handler
    rw [h]
    simp [formatToolName]

/-- Claim C9 witness: a direct invocation without client_context is
rejected even when the event carries valid arguments. -/
theorem missing_context_rejected_check :
    lambda_handler [("orderId", Json.str "123")] (LambdaContext.mk none) =
      LambdaResponse.mk 400 (dumpsJ (Json.obj
        [("error", Json.str "Unknown tool: None")])) :=
  missing_context_rejected.2.2.2 [("orderId", Json.str "123")] (LambdaContext.mk none) rfl

/-- Claim C4: dispatching get_order_tool with orderId 123 returns 200
and the fixed body echoing orderId 123, with a status field, a
two-element (hence non-empty) items list and a total; the handler is a
pure function of the event and resolved name, so the same input always
yields the same output. -/
theorem get_order_known_id (ctx ctx2 : LambdaContext)
    (h : getToolName ctx = some "get_order_tool")
    (h2 : getToolName ctx2 = some "get_order_tool") :
    lambda_handler [("orderId", Json.str "123")] ctx =
      LambdaResponse.mk 200 (dumpsJ (Json.obj
        [("orderId", Json.str "123"),
         ("status", Json.str "processing"),
         ("items", Json.arr
           [Json.obj [("name", Json.str "商品A"), ("quantity", Json.num 2)],
            Json.obj [("name", Json.str "商品B"), ("quantity", Json.num 1)]]),
         ("total", Json.num 5000)])) ∧
    lambda_handler [("orderId", Json.str "123")] ctx =
      lambda_handler [("orderId", Json.str "123")] ctx2 := by
  have key : ∀ c : LambdaContext, getToolName c = some "get_order_tool" →
      lambda_handler [("orderId", Json.str "123")] c =
        LambdaResponse.mk 200 (dumpsJ (Json.obj
          [("orderId", Json.str "123"),
           ("status", Json.str "processing"),
           ("items", Json.arr
             [Json.obj [("name", Json.str "商品A"), ("quantity", Json.num 2)],
              Json.obj [("name", Json.str "商品B"), ("quantity", Json.num 1)]]),
           ("total", Json.num 5000)])) := by
    intro c hc
    unfold lambda_handler
    rw [hc]
    simp [eventGet]
  exact ⟨key ctx h, (key ctx h).trans (key ctx2 h2).symm⟩

/-- Claim C4 witness: a gateway-routed context resolving to
get_order_tool produces the deterministic 200 body for order 123. -/
theorem get_order_known_id_check :
    lambda_handler [("orderId", Json.str "123")]
        (LambdaContext.mk (some (ClientContext.mk (some
          [("bedrockAgentCoreToolName", "orderLambdaTarget___get_order_tool")])))) =
      LambdaResponse.mk 200 (dumpsJ (Json.obj
        [("orderId", Json.str "123"),
         ("status", Json.str "processing"),
         ("items", Json.arr
           [Json.obj [("name", Json.str "商品A"), ("quantity", Json.num 2)],
            Json.obj [("name", Json.str "商品B"), ("quantity", Json.num 1)]]),
         ("total", Json.num 5000)])) :=
  (get_order_known_id
    (LambdaContext.mk (some (ClientContext.mk (some
      [("bedrockAgentCoreToolName", "orderLambdaTarget___get_order_tool")]))))
    (LambdaContext.mk (some (ClientContext.mk (some
      [("bedrockAgentCoreToolName", "orderLambdaTarget___get_order_tool")]))))
    (by decide) (by decide)).1

/-- Claim C10: both registered schemas declare orderId required, yet
both handlers are total in their arguments: an event lacking the
orderId key yields statusCode 200 with the literal order id unknown
substituted into the body rather than an error. -/
theorem handlers_total_without_order_id :
    (∀ entry, entry ∈ tool_schemas → "orderId" ∈ requiredList entry.inputSchema) ∧
    (∀ (event : List (String × Json)) (ctx : LambdaContext),
      getToolName ctx = some "get_order_tool" →
      List.lookup "orderId" event = none →
      lambda_handler event ctx =
        LambdaResponse.mk 200 (dumpsJ (Json.obj
          [("orderId", Json.str "unknown"),
           ("status", Json.str "processing"),
           ("items", Json.arr
             [Json.obj [("name", Json.str "商品A"), ("quantity", Json.num 2)],
              Json.obj [("name", Json.str "商品B"), ("quantity", Json.num 1)]]),
           ("total", Json.num 5000)]))) ∧
    (∀ (event : List (String × Json)) (ctx : LambdaContext),
      getToolName ctx = some "update_order_tool" →
      List.lookup "orderId" event = none →
      lambda_handler event ctx =
        LambdaResponse.mk 200 (dumpsJ (Json.obj
          [("orderId", Json.str "unknown"),
           ("status", Json.str "updated"),
           ("message", Json.str "Order unknown has been updated successfully")]))) := by
  refine ⟨by decide, ?_, ?_⟩
  · intro event ctx h hl
    unfold lambda_handler
    rw [h]
    simp [eventGet, hl]
  · intro event ctx h hl
    unfold lambda_handler
    rw [h]
    simp [eventGet, hl, pyStr]

/-- Claim C10 witness: both handlers dispatched with an empty event
return 200 with order id unknown. -/
theorem handlers_total_without_order_id_check :
    lambda_handler [] (LambdaContext.mk (some (ClientContext.mk (some
        [("bedrockAgentCoreToolName", "orderLambdaTarget___update_order_tool")])))) =
      LambdaResponse.mk 200 (dumpsJ (Json.obj
        [("orderId", Json.str "unknown"),
         ("status", Json.str "updated"),
         ("message", Json.str "Order unknown has been updated successfully")])) :=
  handlers_total_without_order_id.2.2 [] _ (by decide) rfl

/-- Claim C5 counterexample: when tool discovery returns zero tools the
orchestrator does not abort: it builds the agent anyway, runs the model
loop and returns its answer verbatim — a silent degraded mode instead
of the FAILED outcome the claim requires. -/
theorem zero_tools_loop_runs :
    process_with_gateway
      (AgentEnv.mk (Except.ok [])
        (fun _ _ => Except.ok "MODEL LOOP EXECUTED WITH EMPTY TOOLS")) []
      = "MODEL LOOP EXECUTED WITH EMPTY TOOLS" := rfl

/-- Claim C5 amended: a connection or discovery failure (an exception
inside the session) aborts the run with the user-visible error string,
but a discovery that returns zero tools does not abort: the agent is
built and the model loop's answer is returned unchanged. -/
theorem discovery_outcomes (e : String)
    (g : List ToolSchemaEntry → Json → Except String String)
    (p : List (String × Json)) (ans : String)
    (hg : g [] (eventGet p "prompt" (Json.str defaultPrompt)) = Except.ok ans) :
    process_with_gateway (AgentEnv.mk (Except.error e) g) p = "エラーが発生しました: " ++ e ∧
    process_with_gateway (AgentEnv.mk (Except.ok []) g) p = ans := by
  constructor
  · rfl
  · simp only [process_with_gateway, hg]

/-- Claim C5 amended witness: a concrete failing connection and a
concrete zero-tool run. -/
theorem discovery_outcomes_check :
    process_with_gateway
        (AgentEnv.mk (Except.error "connection refused") (fun _ _ => Except.ok "A")) []
      = "エラーが発生しました: " ++ "connection refused" ∧
    process_with_gateway (AgentEnv.mk (Except.ok []) (fun _ _ => Except.ok "A")) [] = "A" :=
  discovery_outcomes "connection refused" (fun _ _ => Except.ok "A") [] "A" rfl

/-- The scripted model reaches its final answer after exactly N tool
invocations whenever enough fuel remains. -/
theorem toolLoop_scripted (invoke : String → List (String × Json) → Json)
    (N : Nat) (ans : String) :
    ∀ (fuel : Nat) (rs : List Json), rs.length ≤ N → N - rs.length < fuel →
      toolLoop invoke (scriptedModel N ans) rs fuel = Except.ok (ans, N) := by
  intro fuel
  induction fuel with
  | zero =>
    intro rs h1 h2
    exact absurd h2 (by omega)
  | succ f ih =>
    intro rs h1 h2
    unfold toolLoop
    by_cases hlt : rs.length < N
    · have hstep : scriptedModel N ans rs = ModelStep.toolCall "get_order_tool" [] := by
        simp [scriptedModel, hlt]
      rw [hstep]
      exact ih (rs ++ [invoke "get_order_tool" []]) (by simp; omega) (by simp; omega)
    · have hEq : rs.length = N := by omega
      have hstep : scriptedModel N ans rs = ModelStep.finalAnswer ans := by
        simp [scriptedModel, hlt]
      rw [hstep, hEq]

/-- A model that never produces a final answer exhausts any fuel. -/
theorem toolLoop_no_final (invoke : String → List (String × Json) → Json)
    (model : List Json → ModelStep)
    (h : ∀ rs, ∃ n a, model rs = ModelStep.toolCall n a) :
    ∀ (fuel : Nat) (rs : List Json),
      toolLoop invoke model rs fuel
        = Except.error "Maximum tool-calling iterations reached" := by
  intro fuel
  induction fuel with
  | zero => intro rs; rfl
  | succ f ih =>
    intro rs
    obtain ⟨n, a, hm⟩ := h rs
    unfold toolLoop
    rw [hm]
    exact ih (rs ++ [invoke n a])

/-- Claim C6 (the loop itself lives in the external strands library and
is modelled from the spec, sections 4.4 and 8): the tool-calling loop
is bounded — a scripted model that requests N tool calls and then
answers makes the loop issue exactly N tool invocations and return that
answer whenever N is below the configured maximum iteration count,
while a model that never stops requesting tools terminates at the
maximum with the bounded-loop error. -/
theorem tool_loop_bounded (invoke : String → List (String × Json) → Json)
    (N maxIter : Nat) (ans : String) (hN : N < maxIter)
    (model2 : List Json → ModelStep)
    (hm : ∀ rs, ∃ n a, model2 rs = ModelStep.toolCall n a) :
    toolLoop invoke (scriptedModel N ans) [] maxIter = Except.ok (ans, N) ∧
    toolLoop invoke model2 [] maxIter
      = Except.error "Maximum tool-calling iterations reached" :=
  ⟨toolLoop_scripted invoke N ans maxIter [] (by simp) (by simp; omega),
   toolLoop_no_final invoke model2 hm maxIter []⟩

/-- Claim C6 witness: two scripted tool calls then an answer, under a
maximum of five iterations; and a never-stopping model exhausting the
same maximum. -/
theorem tool_loop_bounded_check :
    toolLoop (fun _ _ => Json.num 0) (scriptedModel 2 "done") [] 5 = Except.ok ("done", 2) ∧
    toolLoop (fun _ _ => Json.num 0) (fun _ => ModelStep.toolCall "t" []) [] 5
      = Except.error "Maximum tool-calling iterations reached" :=
  tool_loop_bounded (fun _ _ => Json.num 0) 2 5 "done" (by omega)
    (fun _ => ModelStep.toolCall "t" []) (fun _ => ⟨"t", [], rfl⟩)

/-- Claim C7: the entrypoint is total — every failure becomes a
caller-visible string rather than a propagated exception — and the
string distinguishes credential-acquisition failure (the
authentication-failed prefix) from failures raised inside the session
during discovery, tool use or the model run (the error-occurred
prefix); the two prefixes differ. -/
theorem entrypoint_error_paths (gs : Option String)
    (tp : List String → Except String Unit) (env : AgentEnv) (p : List (String × Json)) :
    (∀ e, tp (scopesFrom gs) = Except.error e →
      order_management_agent gs tp env p = "認証に失敗しました: " ++ e) ∧
    (∀ e, tp (scopesFrom gs) = Except.ok () → env.listToolsResult = Except.error e →
      order_management_agent gs tp env p = "エラーが発生しました: " ++ e) ∧
    (∀ e tools, tp (scopesFrom gs) = Except.ok () → env.listToolsResult = Except.ok tools →
      env.agentRun tools (eventGet p "prompt" (Json.str defaultPrompt)) = Except.error e →
      order_management_agent gs tp env p = "エラーが発生しました: " ++ e) ∧
    ("認証に失敗しました: " : String) ≠ "エラーが発生しました: " := by
  refine ⟨?_, ?_, ?_, by decide⟩
  · intro e h
    unfold order_management_agent
    rw [h]
  · intro e h1 h2
    unfold order_management_agent
    rw [h1]
    unfold process_with_gateway
    rw [h2]
  · intro e tools h1 h2 h3
    simp only [order_management_agent, process_with_gateway, h1, h2, h3]

/-- Claim C7 witness: a failing token acquisition surfaces as the
authentication-failed message. -/
theorem entrypoint_error_paths_check :
    order_management_agent none (fun _ => Except.error "token endpoint unreachable")
        (AgentEnv.mk (Except.ok []) (fun _ _ => Except.ok "x")) []
      = "認証に失敗しました: " ++ "token endpoint unreachable" :=
  (entrypoint_error_paths none (fun _ => Except.error "token endpoint unreachable")
    (AgentEnv.mk (Except.ok []) (fun _ _ => Except.ok "x")) []).1
    "token endpoint unreachable" rfl

/-- Claim C8: credential acquisition accepts an empty scope list — an
unset or empty GATEWAY_SCOPE gives scopes = [] (default client scopes)
and the entrypoint behaves identically in the two cases, while a
non-empty scope string is whitespace-split; the empty case is total and
does not fail. -/
theorem scopes_from_env :
    scopesFrom none = [] ∧
    scopesFrom (some "") = [] ∧
    (∀ s : String, ¬ s.isEmpty = true → scopesFrom (some s) = pySplit s) ∧
    scopesFrom (some "agentcore-gateway/read agentcore-gateway/write")
      = ["agentcore-gateway/read", "agentcore-gateway/write"] ∧
    (∀ tp env p, order_management_agent none tp env p
      = order_management_agent (some "") tp env p) := by
  refine ⟨rfl, rfl, ?_, by decide, ?_⟩
  · intro s h
    unfold scopesFrom
    simp [h]
  · intro tp env p
    rfl

/-- Claim C8 witness: a concrete two-scope string is whitespace-split. -/
theorem scopes_from_env_check :
    scopesFrom (some "scope-a scope-b") = pySplit "scope-a scope-b" :=
  scopes_from_env.2.2.1 "scope-a scope-b" (by decide)
